import Mathlib

/-!
Verification of the payload formatters and the logo compositor of
`app_qr_lab.py` (QR Lab).  The Python functions are shallowly embedded:
strings are Lean `String`/`List Char`, Python `s or ""` guards become an
explicit `Option String` treatment, datetimes become a record of numeric
fields, and PIL rasters become a small functional image model.
-/

namespace QrLab

/-- Python truthiness guard `s or d` for an optional string argument:
`None` and the empty string are falsy, any other string is returned as is. -/
def pyOr (s : Option String) (d : String) : String :=
  match s with
  | none => d
  | some s => if s = "" then d else s

/-- Python `str.upper()` restricted to ASCII, which covers every auth
token the program compares against. -/
def pyUpper (s : String) : String :=
  ⟨s.data.map Char.toUpper⟩

/-- Python whitespace for `str.strip()`: space, tab, newline, carriage
return, vertical tab, form feed (ASCII range of `str.isspace`). -/
def isPySpace (c : Char) : Bool :=
  c = ' ' || c = '\t' || c = '\n' || c = '\r' || c = '\x0b' || c = '\x0c'

/-- Python `str.strip()`: drop leading and trailing whitespace. -/
def pyStrip (s : String) : String :=
  ⟨((s.data.dropWhile isPySpace).reverse.dropWhile isPySpace).reverse⟩

/-- Python `str.replace(c, r)` for a single-character needle `c`:
left-to-right, every occurrence replaced by `r`. -/
def replaceChar (c : Char) (r : List Char) : List Char → List Char
  | [] => []
  | d :: rest => if d = c then r ++ replaceChar c r rest else d :: replaceChar c r rest

/-- The `esc` helper inside `build_wifi_payload`, on character lists:
`.replace("\\", "\\\\").replace(";", "\\;").replace(",", "\\,")` —
backslash first, then semicolon, then comma. -/
def escList (l : List Char) : List Char :=
  replaceChar ',' ['\\', ','] (replaceChar ';' ['\\', ';'] (replaceChar '\\' ['\\', '\\'] l))

/-- `esc(s)` from `build_wifi_payload`: `(s or "").replace(...)`. -/
def esc (s : Option String) : String :=
  ⟨escList (pyOr s "").data⟩

/-- `build_wifi_payload(ssid, password, auth, hidden)` from the source:
normalizes `auth` via `(auth or "nopass").upper()`, keeps it only if it is
one of WEP/WPA/WPA2/NOPASS (else WPA), renders NOPASS as lowercase
`nopass`, and emits `WIFI:T:..;S:..;P:..;H:..;;` with escaped fields. -/
def build_wifi_payload (ssid password auth : Option String) (hidden : Bool) : String :=
  let auth1 := pyUpper (pyOr auth "nopass")
  let auth2 := if auth1 ∈ (["WEP", "WPA", "WPA2", "NOPASS"] : List String) then auth1 else "WPA"
  let hidden_flag := if hidden then "true" else "false"
  "WIFI:T:" ++ (if auth2 = "NOPASS" then "nopass" else auth2) ++
    ";S:" ++ esc ssid ++ ";P:" ++ esc password ++ ";H:" ++ hidden_flag ++ ";;"

/-- One hex digit (uppercase, as `urllib.parse.quote` emits). -/
def hexDigit (n : Nat) : Char :=
  if n < 10 then Char.ofNat ('0'.toNat + n) else Char.ofNat ('A'.toNat + n - 10)

/-- Whether a byte is left unescaped by `urllib.parse.quote` with the
default `safe='/'`: ASCII letters, digits, `_.-~` and `/`. -/
def quoteSafe (b : Nat) : Bool :=
  (65 ≤ b && b ≤ 90) || (97 ≤ b && b ≤ 122) || (48 ≤ b && b ≤ 57) ||
    b = '_'.toNat || b = '.'.toNat || b = '-'.toNat || b = '~'.toNat || b = '/'.toNat

/-- `urllib.parse.quote(s)` (default `safe='/'`): percent-encode every
UTF-8 byte outside the safe set, uppercase hex. -/
def quote (s : String) : String :=
  String.join (s.toUTF8.toList.map fun b =>
    let n := b.toNat
    if quoteSafe n then String.singleton (Char.ofNat n)
    else "%" ++ String.singleton (hexDigit (n / 16)) ++ String.singleton (hexDigit (n % 16)))

/-- `build_mailto(email, subject, body)` from the source: `mailto:` URI,
query string with percent-encoded `subject=`/`body=` only for non-empty
fields (Python truthiness), joined by `&`, omitted when both empty. -/
def build_mailto (email subject body : String) : String :=
  let qs : List String :=
    (if subject = "" then [] else ["subject=" ++ quote subject]) ++
      (if body = "" then [] else ["body=" ++ quote body])
  "mailto:" ++ email ++ (if qs = [] then "" else "?" ++ String.intercalate "&" qs)

/-- `build_sms(number, message)` from the source: `SMSTO:number:message`
with `message or ''`. -/
def build_sms (number : String) (message : Option String) : String :=
  "SMSTO:" ++ number ++ ":" ++ pyOr message ""

/-- `build_tel(number)` from the source. -/
def build_tel (number : String) : String :=
  "tel:" ++ number

/-- `build_geo(lat, lon, label)` from the source.  `lat`/`lon` are the
decimal renderings Python's f-string produces for the float inputs
(float repr is outside this embedding; the formatter only concatenates
them), `label` is appended as `?q=<quoted>` when truthy. -/
def build_geo (lat lon label : String) : String :=
  "geo:" ++ lat ++ "," ++ lon ++ (if label = "" then "" else "?q=" ++ quote label)

/-- A Python `datetime` as `strftime("%Y%m%dT%H%M%S")` consumes it. -/
structure PyDateTime where
  year : Nat
  month : Nat
  day : Nat
  hour : Nat
  minute : Nat
  second : Nat
deriving DecidableEq

/-- Zero-pad to two digits (`%m %d %H %M %S`). -/
def pad2 (n : Nat) : String :=
  if n < 10 then "0" ++ toString n else toString n

/-- Zero-pad to four digits (`%Y`). -/
def pad4 (n : Nat) : String :=
  if n < 10 then "000" ++ toString n
  else if n < 100 then "00" ++ toString n
  else if n < 1000 then "0" ++ toString n
  else toString n

/-- `_fmt_dt(dt)` from the source: `dt.strftime("%Y%m%dT%H%M%S")`. -/
def fmt_dt (dt : PyDateTime) : String :=
  pad4 dt.year ++ pad2 dt.month ++ pad2 dt.day ++ "T" ++
    pad2 dt.hour ++ pad2 dt.minute ++ pad2 dt.second

/-- Python `.replace('\\n', '\\\\n')` as written in `build_vevent`: the
needle is the TWO-character sequence backslash-n (not the newline
character), replaced left to right by backslash-backslash-n. -/
def replaceBackslashN : List Char → List Char
  | '\\' :: 'n' :: rest => '\\' :: '\\' :: 'n' :: replaceBackslashN rest
  | d :: rest => d :: replaceBackslashN rest
  | [] => []

/-- String wrapper for `replaceBackslashN`. -/
def pyReplaceBackslashN (s : String) : String :=
  ⟨replaceBackslashN s.data⟩

/-- `build_vevent(summary, start_dt, end_dt, location, desc)` from the
source: the fixed VCALENDAR/VEVENT lines joined by newline, with
`summary or ''`, `location or ''`, and the description passed through
`(desc or '').replace('\\n', '\\\\n')`. -/
def build_vevent (summary : Option String) (start_dt end_dt : PyDateTime)
    (location desc : Option String) : String :=
  String.intercalate "\n"
    [ "BEGIN:VCALENDAR",
      "VERSION:2.0",
      "PRODID:-//QR Lab//EN",
      "BEGIN:VEVENT",
      "SUMMARY:" ++ pyOr summary "",
      "DTSTART:" ++ fmt_dt start_dt,
      "DTEND:" ++ fmt_dt end_dt,
      "LOCATION:" ++ pyOr location "",
      "DESCRIPTION:" ++ pyReplaceBackslashN (pyOr desc ""),
      "END:VEVENT",
      "END:VCALENDAR" ]

/-- The `lines` list `build_vcard` constructs before joining: fixed head,
`N:`/`FN:` lines (the `FN` line is the whole f-string passed through
`.strip()`), then one conditional append per truthy optional field, then
the terminator. -/
def vcard_lines (given family phone email org title url : String) : List String :=
  (((((["BEGIN:VCARD",
        "VERSION:3.0",
        "N:" ++ family ++ ";" ++ given ++ ";;;",
        pyStrip ("FN:" ++ given ++ " " ++ family)]
    ++ (if org = "" then [] else ["ORG:" ++ org]))
    ++ (if title = "" then [] else ["TITLE:" ++ title]))
    ++ (if phone = "" then [] else ["TEL;TYPE=CELL:" ++ phone]))
    ++ (if email = "" then [] else ["EMAIL;TYPE=INTERNET:" ++ email]))
    ++ (if url = "" then [] else ["URL:" ++ url]))
    ++ ["END:VCARD"]

/-- `build_vcard(...)` from the source: the constructed lines joined by
newline. -/
def build_vcard (given family phone email org title url : String) : String :=
  String.intercalate "\n" (vcard_lines given family phone email org title url)

/-! ### Image model for the logo compositor

A PIL RGBA raster is modelled as its dimensions plus a pixel function;
channel values are naturals (0..255 in practice). -/

structure Rgba where
  r : Nat
  g : Nat
  b : Nat
  a : Nat
deriving DecidableEq

structure Img where
  width : Nat
  height : Nat
  px : Nat → Nat → Rgba

/-- The circular mask value at offset `(x, y)` for a `w × h` logo.

The source computes, in NumPy floats,
`centerx, centery = (w - 1) / 2, (h - 1) / 2`, `radius = min(centerx,
centery)`, and sets the mask to 255 where
`(x - centerx)**2 + (y - centery)**2 <= radius**2`, else 0.  All the
float values involved are dyadic rationals with numerators far below
2^53 for any real image (w, h < 2^21), so the float comparison is exact
and equals the integer comparison used here after scaling every length
by 2 (which clears the halves). -/
def circleMask (w h x y : Nat) : Nat :=
  if (2 * (x : ℤ) - ((w : ℤ) - 1)) ^ 2 + (2 * (y : ℤ) - ((h : ℤ) - 1)) ^ 2
      ≤ (min ((w : ℤ) - 1) ((h : ℤ) - 1)) ^ 2
  then 255 else 0

/-- PIL `putalpha(mask)`: replace the image's alpha channel with the
single-channel mask, keeping the color channels. -/
def putalpha (img : Img) (mask : Nat → Nat → Nat) : Img :=
  { img with px := fun x y => { img.px x y with a := mask x y } }

/-- The `if opts["round_logo"]` branch: build the circular mask at the
logo's own dimensions and install it as the alpha channel. -/
def applyRoundMask (logo : Img) : Img :=
  putalpha logo (circleMask logo.width logo.height)

/-- The body of the `try:` block guarding the logo overlay.  `decoded`
abstracts `Image.open(...).convert("RGBA")` (the external decoder, which
raises on a corrupt or unsupported file); `resizeF` abstracts
`logo_img.resize(...)` and `compF` abstracts
`preview_img.alpha_composite(...)`, each of which may also raise.  Any
raised exception is an `Except.error`. -/
def logoTryBlock (base : Img) (decoded : Except String Img) (roundMask : Bool)
    (resizeF : Img → Except String Img) (compF : Img → Img → Except String Img) :
    Except String Img := do
  let logo ← decoded
  let logo := if roundMask then applyRoundMask logo else logo
  let logo ← resizeF logo
  compF base logo

/-- The whole guarded overlay step: on success the composited raster, on
any exception the `except` handler runs `st.info("Logo overlay failed;
continuing without logo.")` and the unmodified base raster is kept.  The
second component is the informational message shown to the caller. -/
def logoOverlay (base : Img) (decoded : Except String Img) (roundMask : Bool)
    (resizeF : Img → Except String Img) (compF : Img → Img → Except String Img) :
    Img × Option String :=
  match logoTryBlock base decoded roundMask resizeF compF with
  | .ok img => (img, none)
  | .error _ => (base, some "Logo overlay failed; continuing without logo.")

/-! ### Spec-side definitions (for refinement-style statements) -/

/-- The auth normalization as the amended claim words it: empty or
missing auth maps to `nopass`; WEP/WPA/WPA2/NOPASS (case-insensitive)
map to their uppercase forms with NOPASS rendered as lowercase `nopass`;
anything else defaults to `WPA`. -/
def normAuthClaim (auth : Option String) : String :=
  match auth with
  | none => "nopass"
  | some a =>
    if a = "" then "nopass"
    else
      let u := pyUpper a
      if u = "NOPASS" then "nopass"
      else if u = "WEP" ∨ u = "WPA" ∨ u = "WPA2" then u
      else "WPA"

/-- The inverse unescaping of the Wi-Fi field escaping: a backslash
followed by any character decodes to that character; everything else is
copied verbatim. -/
def unescList : List Char → List Char
  | [] => []
  | [c] => [c]
  | c :: d :: rest =>
    if c = '\\' then d :: unescList rest else c :: unescList (d :: rest)

/-- String wrapper for `unescList`. -/
def wifiUnesc (s : String) : String :=
  ⟨unescList s.data⟩

/-- The spec's real-valued round-mask condition at `(x, y)`: the distance
from the image center `((w-1)/2, (h-1)/2)` is at most
`radius = min((w-1)/2, (h-1)/2)`, stated over `ℚ`. -/
def maskCondQ (w h x y : Nat) : Prop :=
  ((x : ℚ) - ((w : ℚ) - 1) / 2) ^ 2 + ((y : ℚ) - ((h : ℚ) - 1) / 2) ^ 2
    ≤ (min (((w : ℚ) - 1) / 2) (((h : ℚ) - 1) / 2)) ^ 2

/-! ### Claims -/

/-- **C8** (confirmed).  `build_wifi_payload("Home", "pw123", "NOPASS",
False)` returns exactly `WIFI:T:nopass;S:Home;P:pw123;H:false;;`: the
NOPASS auth is emitted as the lowercase token `nopass`, the password
field is still emitted under NOPASS, and `hidden=False` renders as the
literal word `false`. -/
theorem wifi_nopass_example :
    build_wifi_payload (some "Home") (some "pw123") (some "NOPASS") false =
      "WIFI:T:nopass;S:Home;P:pw123;H:false;;" := by
  decide

/-- **C1** (code bug).  The claim says `build_vevent` replaces each raw
newline in the description with the two-character escape backslash-n.
The code instead calls `.replace('\\n', '\\\\n')`, whose needle is the
two-character sequence backslash-n: a raw newline passes through
untouched (first conjunct: the emitted block contains a raw line break
inside DESCRIPTION), while a pre-escaped backslash-n gets doubled
(second conjunct). -/
theorem vevent_description_raw_newline :
    build_vevent (some "Mtg") ⟨2025, 1, 1, 9, 0, 0⟩ ⟨2025, 1, 1, 10, 0, 0⟩
        (some "HQ") (some "a\nb") =
      "BEGIN:VCALENDAR\nVERSION:2.0\nPRODID:-//QR Lab//EN\nBEGIN:VEVENT\nSUMMARY:Mtg\nDTSTART:20250101T090000\nDTEND:20250101T100000\nLOCATION:HQ\nDESCRIPTION:a\nb\nEND:VEVENT\nEND:VCALENDAR"
      ∧ pyReplaceBackslashN "a\nb" = "a\nb"
      ∧ pyReplaceBackslashN "x\\ny" = "x\\\\ny" := by
  exact ⟨rfl, rfl, rfl⟩

/-- **C2**, counterexample.  The claim maps recognized input `wpa2` to
the literal token `WPA`, and says the emitted token is always one of
WEP, WPA, `nopass`.  The code keeps `WPA2` as its own token: the payload
differs from the one the claim demands. -/
theorem wifi_auth_wpa2_counterexample :
    build_wifi_payload (some "Home") (some "pw") (some "wpa2") false =
        "WIFI:T:WPA2;S:Home;P:pw;H:false;;"
      ∧ ("WIFI:T:WPA2;S:Home;P:pw;H:false;;" : String) ≠
          "WIFI:T:WPA;S:Home;P:pw;H:false;;" := by
  exact ⟨by decide, by decide⟩

/-- The token the code emits after `T:` equals the claim-side
normalization `normAuthClaim`. -/
lemma wifi_token_eq_normAuthClaim (auth : Option String) :
    (if (if pyUpper (pyOr auth "nopass") ∈ (["WEP", "WPA", "WPA2", "NOPASS"] : List String)
          then pyUpper (pyOr auth "nopass") else "WPA") = "NOPASS"
      then "nopass"
      else (if pyUpper (pyOr auth "nopass") ∈ (["WEP", "WPA", "WPA2", "NOPASS"] : List String)
          then pyUpper (pyOr auth "nopass") else "WPA")) = normAuthClaim auth := by
  cases auth with
  | none => decide
  | some a =>
    by_cases ha : a = ""
    · subst ha; decide
    · simp only [pyOr, if_neg ha, normAuthClaim]
      by_cases h1 : pyUpper a = "WEP"
      · simp [h1, ha]
      · by_cases h2 : pyUpper a = "WPA"
        · simp [h2, ha]
        · by_cases h3 : pyUpper a = "WPA2"
          · simp [h3, ha]
          · by_cases h4 : pyUpper a = "NOPASS"
            · simp [h4, ha]
            · simp [h1, h2, h3, h4, ha]

/-- **C2** (corrected).  For every auth input, the `T:` token
`build_wifi_payload` emits is one of the four values `WEP`, `WPA`,
`WPA2`, `nopass`: empty or missing auth maps to `nopass`; recognized
inputs WEP/WPA/WPA2/NOPASS (case-insensitively) map to themselves
uppercased, with NOPASS rendered as the lowercase token `nopass` and
WPA2 kept as the literal token `WPA2`; every other input defaults to
`WPA`.  (The original claim's "WPA2 maps to WPA" and three-value token
set fail: see the counterexample.) -/
theorem wifi_auth_token_normalization (ssid password auth : Option String) (hidden : Bool) :
    build_wifi_payload ssid password auth hidden =
        "WIFI:T:" ++ normAuthClaim auth ++ ";S:" ++ esc ssid ++ ";P:" ++ esc password ++
          ";H:" ++ (if hidden then "true" else "false") ++ ";;"
      ∧ (normAuthClaim auth = "WEP" ∨ normAuthClaim auth = "WPA" ∨
          normAuthClaim auth = "WPA2" ∨ normAuthClaim auth = "nopass") := by
  constructor
  · show "WIFI:T:" ++ _ ++ ";S:" ++ _ ++ ";P:" ++ _ ++ ";H:" ++ _ ++ ";;" = _
    rw [wifi_token_eq_normAuthClaim auth]
  · cases auth with
    | none => decide
    | some a =>
      by_cases ha : a = ""
      · subst ha; decide
      · simp only [normAuthClaim, if_neg ha]
        by_cases h4 : pyUpper a = "NOPASS"
        · simp [h4]
        · by_cases h1 : pyUpper a = "WEP"
          · simp [h1, h4]
          · by_cases h2 : pyUpper a = "WPA"
            · simp [h2, h4]
            · by_cases h3 : pyUpper a = "WPA2"
              · simp [h3, h4]
              · simp [h1, h2, h3, h4]

/-- **C10** (confirmed).  `build_wifi_payload` (ssid and password),
`build_sms` (message) and `build_vevent` (summary, location, desc)
accept `None` in place of a string and treat it exactly as the empty
string: each call with `none` returns the same output as with `some ""`.
(The embedded functions are total, matching "never raise": every `None`
is consumed by an `x or ""`/`x or "nopass"` guard before use.) -/
theorem none_treated_as_empty :
    (∀ (p a : Option String) (hid : Bool),
        build_wifi_payload none p a hid = build_wifi_payload (some "") p a hid)
  ∧ (∀ (s a : Option String) (hid : Bool),
        build_wifi_payload s none a hid = build_wifi_payload s (some "") a hid)
  ∧ (∀ n : String, build_sms n none = build_sms n (some ""))
  ∧ (∀ (d1 d2 : PyDateTime) (l de : Option String),
        build_vevent none d1 d2 l de = build_vevent (some "") d1 d2 l de)
  ∧ (∀ (su : Option String) (d1 d2 : PyDateTime) (de : Option String),
        build_vevent su d1 d2 none de = build_vevent su d1 d2 (some "") de)
  ∧ (∀ (su : Option String) (d1 d2 : PyDateTime) (l : Option String),
        build_vevent su d1 d2 l none = build_vevent su d1 d2 l (some "")) := by
  refine ⟨?_, ?_, ?_, ?_, ?_, ?_⟩ <;> intros <;> rfl

/-- **C9** (confirmed).  Every payload formatter is deterministic and
side-effect-free: any two calls with identical inputs return identical
strings.  (Each formatter is embedded as a total Lean function of its
arguments alone, which was checked against the source: none of the
Python functions reads or writes state outside its parameters.) -/
theorem formatters_deterministic :
    (∀ (s s' p p' a a' : Option String) (hid hid' : Bool), s = s' → p = p' → a = a' →
        hid = hid' → build_wifi_payload s p a hid = build_wifi_payload s' p' a' hid')
  ∧ (∀ e e' su su' b b' : String, e = e' → su = su' → b = b' →
        build_mailto e su b = build_mailto e' su' b')
  ∧ (∀ (n n' : String) (m m' : Option String), n = n' → m = m' →
        build_sms n m = build_sms n' m')
  ∧ (∀ n n' : String, n = n' → build_tel n = build_tel n')
  ∧ (∀ la la' lo lo' lb lb' : String, la = la' → lo = lo' → lb = lb' →
        build_geo la lo lb = build_geo la' lo' lb')
  ∧ (∀ (su su' : Option String) (d1 d1' d2 d2' : PyDateTime) (l l' de de' : Option String),
        su = su' → d1 = d1' → d2 = d2' → l = l' → de = de' →
        build_vevent su d1 d2 l de = build_vevent su' d1' d2' l' de')
  ∧ (∀ g g' f f' p p' e e' o o' t t' u u' : String, g = g' → f = f' → p = p' → e = e' →
        o = o' → t = t' → u = u' →
        build_vcard g f p e o t u = build_vcard g' f' p' e' o' t' u') := by
  refine ⟨?_, ?_, ?_, ?_, ?_, ?_, ?_⟩ <;> intros <;> subst_vars <;> rfl

/-- Witness for C9: the determinism theorem applied at concrete equal
inputs. -/
theorem formatters_deterministic_witness :
    build_tel "+15551234567" = build_tel "+15551234567" :=
  formatters_deterministic.2.2.2.1 "+15551234567" "+15551234567" rfl

/-- **C5** (confirmed).  For every base raster and every logo input
whose decoding, masking, resizing or compositing step raises (the
`try:` body evaluates to an error), the generation step returns the
unmodified base raster — the composite is skipped — together with the
non-fatal informational message; no error propagates (the overlay step
is total). -/
theorem logo_failure_returns_base (base : Img) (decoded : Except String Img)
    (roundMask : Bool) (resizeF : Img → Except String Img)
    (compF : Img → Img → Except String Img) (e : String)
    (hfail : logoTryBlock base decoded roundMask resizeF compF = .error e) :
    logoOverlay base decoded roundMask resizeF compF =
      (base, some "Logo overlay failed; continuing without logo.") := by
  unfold logoOverlay
  rw [hfail]

/-- Witness for C5: a corrupt logo file (decoder raises) with a 1×1 base
raster. -/
theorem logo_failure_returns_base_witness :
    logoOverlay ⟨1, 1, fun _ _ => ⟨0, 0, 0, 255⟩⟩ (.error "corrupt") true
        (fun i => .ok i) (fun b _ => .ok b) =
      (⟨1, 1, fun _ _ => ⟨0, 0, 0, 255⟩⟩, some "Logo overlay failed; continuing without logo.") :=
  logo_failure_returns_base _ _ _ _ _ "corrupt" rfl

lemma replaceChar_append (c : Char) (r a b : List Char) :
    replaceChar c r (a ++ b) = replaceChar c r a ++ replaceChar c r b := by
  induction a with
  | nil => simp [replaceChar]
  | cons d t ih =>
    simp only [List.cons_append, replaceChar]
    split <;> simp [ih, List.append_assoc]

lemma replaceChar_cons (c : Char) (r : List Char) (d : Char) (l : List Char) :
    replaceChar c r (d :: l) = replaceChar c r [d] ++ replaceChar c r l := by
  by_cases h : d = c <;> simp [replaceChar, h]

lemma escList_cons (c : Char) (l : List Char) :
    escList (c :: l) = escList [c] ++ escList l := by
  unfold escList
  rw [replaceChar_cons '\\' _ c l, replaceChar_append, replaceChar_append]

lemma unescList_cons_of_ne (c : Char) (h : ¬c = '\\') (l : List Char) :
    unescList (c :: l) = c :: unescList l := by
  cases l <;> simp [unescList, h]

lemma unescList_escList (l : List Char) : unescList (escList l) = l := by
  induction l with
  | nil => rfl
  | cons c t ih =>
    rw [escList_cons]
    by_cases h1 : c = '\\'
    · subst h1
      rw [show escList ['\\'] = ['\\', '\\'] from rfl]
      simpa [unescList] using ih
    · by_cases h2 : c = ';'
      · subst h2
        rw [show escList [';'] = ['\\', ';'] from rfl]
        simpa [unescList] using ih
      · by_cases h3 : c = ','
        · subst h3
          rw [show escList [','] = ['\\', ','] from rfl]
          simpa [unescList] using ih
        · rw [show escList [c] = [c] by simp [escList, replaceChar, h1, h2, h3],
            List.singleton_append, unescList_cons_of_ne c h1, ih]

lemma pyOr_some_empty (s : String) : pyOr (some s) "" = s := by
  by_cases h : s = "" <;> simp [pyOr, h]

/-- **C3** (confirmed).  The Wi-Fi field escaping (backslash first, then
semicolon, then comma, exactly as `esc` chains its three `replace`
calls) is reversible: for every field containing `;`, `,` or `\`,
unescaping the produced field recovers the original string exactly.
(The proof passes through `unescList_escList`, which shows injectivity
for all strings, not only those containing a special character.) -/
theorem wifi_escaping_reversible (s : String)
    (h : ';' ∈ s.data ∨ ',' ∈ s.data ∨ '\\' ∈ s.data) :
    wifiUnesc (esc (some s)) = s := by
  unfold wifiUnesc esc
  rw [pyOr_some_empty, unescList_escList]

/-- Witness for C3: a field containing both a semicolon and a backslash. -/
theorem wifi_escaping_reversible_witness :
    (';' ∈ "a;\\b".data ∨ ',' ∈ "a;\\b".data ∨ '\\' ∈ "a;\\b".data) ∧
      wifiUnesc (esc (some "a;\\b")) = "a;\\b" :=
  ⟨Or.inl (by decide), wifi_escaping_reversible "a;\\b" (Or.inl (by decide))⟩

/-- The integer-scaled test inside `circleMask` is exactly the spec's
rational distance-to-center test. -/
lemma circleMask_cond_iff (w h x y : Nat) :
    ((2 * (x : ℤ) - ((w : ℤ) - 1)) ^ 2 + (2 * (y : ℤ) - ((h : ℤ) - 1)) ^ 2
        ≤ (min ((w : ℤ) - 1) ((h : ℤ) - 1)) ^ 2) ↔ maskCondQ w h x y := by
  unfold maskCondQ
  rw [show min (((w : ℚ) - 1) / 2) (((h : ℚ) - 1) / 2)
        = min ((w : ℚ) - 1) ((h : ℚ) - 1) / 2 from min_div_div_right (by norm_num) _ _]
  rw [← @Int.cast_le ℚ _ _ _]
  push_cast
  constructor <;> intro H <;> nlinarith [H]

lemma circleMask_eq_zero_of (w h x y : Nat)
    (H : ¬((2 * (x : ℤ) - ((w : ℤ) - 1)) ^ 2 + (2 * (y : ℤ) - ((h : ℤ) - 1)) ^ 2
        ≤ (min ((w : ℤ) - 1) ((h : ℤ) - 1)) ^ 2)) :
    circleMask w h x y = 0 := by
  unfold circleMask
  exact if_neg H

lemma circleMask_eq_255_of (w h x y : Nat)
    (H : (2 * (x : ℤ) - ((w : ℤ) - 1)) ^ 2 + (2 * (y : ℤ) - ((h : ℤ) - 1)) ^ 2
        ≤ (min ((w : ℤ) - 1) ((h : ℤ) - 1)) ^ 2) :
    circleMask w h x y = 255 := by
  unfold circleMask
  exact if_pos H

/-- **C6** (corrected).  The round-mask branch builds a single-channel
mask over the logo's own pixel grid whose value at `(x, y)` is 255 iff
the distance from the image center `((w-1)/2, (h-1)/2)` is at most
`radius = min((w-1)/2, (h-1)/2)` and 0 otherwise, and installs it as the
alpha channel, replacing any existing alpha while keeping the color
channels.  Consequently, for a square logo of side at least 2 the four
corner pixels are fully transparent, and for side at least 3 the center
pixel `(w/2, w/2)` is fully opaque.  (The original claim asserted an
opaque center already for side 2, where the mask is all-zero: see the
counterexample.) -/
theorem round_mask_characterization :
    (∀ (logo : Img) (x y : Nat),
        ((applyRoundMask logo).px x y).a = circleMask logo.width logo.height x y
      ∧ (applyRoundMask logo).width = logo.width
      ∧ (applyRoundMask logo).height = logo.height
      ∧ ((applyRoundMask logo).px x y).r = (logo.px x y).r
      ∧ ((applyRoundMask logo).px x y).g = (logo.px x y).g
      ∧ ((applyRoundMask logo).px x y).b = (logo.px x y).b)
  ∧ (∀ w h x y : Nat,
        (circleMask w h x y = 255 ↔ maskCondQ w h x y)
      ∧ (circleMask w h x y = 0 ↔ ¬maskCondQ w h x y))
  ∧ (∀ w : Nat, 2 ≤ w →
        circleMask w w 0 0 = 0 ∧ circleMask w w (w - 1) 0 = 0 ∧
          circleMask w w 0 (w - 1) = 0 ∧ circleMask w w (w - 1) (w - 1) = 0)
  ∧ (∀ w : Nat, 3 ≤ w → circleMask w w (w / 2) (w / 2) = 255) := by
  refine ⟨?_, ?_, ?_, ?_⟩
  · intro logo x y
    exact ⟨rfl, rfl, rfl, rfl, rfl, rfl⟩
  · intro w h x y
    unfold circleMask
    rw [← circleMask_cond_iff w h x y]
    split_ifs with hc
    · simp [hc]
    · simp [hc]
  · intro w hw
    have hW : (1 : ℤ) ≤ (w : ℤ) - 1 := by omega
    have hcast : ((w - 1 : Nat) : ℤ) = (w : ℤ) - 1 := by omega
    refine ⟨?_, ?_, ?_, ?_⟩ <;>
      · apply circleMask_eq_zero_of
        rw [min_self]
        push_cast [hcast]
        intro Hc
        nlinarith [Hc, hW]
  · intro w hw
    apply circleMask_eq_255_of
    rw [min_self]
    have hW : (2 : ℤ) ≤ (w : ℤ) - 1 := by omega
    have ha : 2 * ((w / 2 : Nat) : ℤ) - ((w : ℤ) - 1) = 0
        ∨ 2 * ((w / 2 : Nat) : ℤ) - ((w : ℤ) - 1) = 1 := by omega
    rcases ha with ha | ha <;> rw [ha] <;> nlinarith [hW]

/-- **C6**, counterexample.  For a square 2×2 logo every pixel of the
circular mask is 0 (distance² from center is 1/2 while radius² is 1/4),
so in particular no center pixel is opaque, contradicting the claim's
"square logo of side at least 2 ... center pixel is fully opaque". -/
theorem round_mask_2x2_counterexample :
    circleMask 2 2 0 0 = 0 ∧ circleMask 2 2 0 1 = 0 ∧
      circleMask 2 2 1 0 = 0 ∧ circleMask 2 2 1 1 = 0 := by
  decide

/-- Witness for C6 at a concrete 5×5 logo: transparent corner, opaque
center. -/
theorem round_mask_characterization_witness :
    circleMask 5 5 0 0 = 0 ∧ circleMask 5 5 (5 / 2) (5 / 2) = 255 :=
  ⟨(round_mask_characterization.2.2.1 5 (by norm_num)).1,
    round_mask_characterization.2.2.2 5 (by norm_num)⟩

/-- The optional vCard lines in their fixed order, kept exactly when the
corresponding field is non-empty (spec-side description of the order). -/
def vcardOptionalLines (phone email org title url : String) : List String :=
  List.filterMap (fun pr => if pr.1 = "" then none else some pr.2)
    [(org, "ORG:" ++ org), (title, "TITLE:" ++ title), (phone, "TEL;TYPE=CELL:" ++ phone),
      (email, "EMAIL;TYPE=INTERNET:" ++ email), (url, "URL:" ++ url)]

/-- Two strings whose data lists start with different two-character
runs are different. -/
lemma ne_of_head2 (x1 x2 y1 y2 : Char) (l1 l2 : List Char) (a b : String)
    (ha : a.data = x1 :: x2 :: l1) (hb : b.data = y1 :: y2 :: l2)
    (h : ¬(x1 = y1 ∧ x2 = y2)) : a ≠ b := by
  intro e
  rw [e, hb] at ha
  injection ha with h1 hrest
  injection hrest with h2 _
  exact h ⟨h1.symm, h2.symm⟩

/-- A string whose first character is not whitespace keeps it as head
after `pyStrip`. -/
lemma pyStrip_head (s : String) (c : Char) (l : List Char) (hs : s.data = c :: l)
    (hc : isPySpace c = false) : (pyStrip s).data.head? = some c := by
  unfold pyStrip
  show (((s.data.dropWhile isPySpace).reverse.dropWhile isPySpace).reverse).head? = some c
  rw [hs, List.dropWhile_cons]
  simp only [hc, Bool.false_eq_true, if_false, List.reverse_cons, List.dropWhile_append]
  split_ifs with hemp
  · simp [List.dropWhile_cons, hc]
  · simp [List.reverse_append]

/-- **C4**, counterexample.  With `given = ""`, `family = "B"` the claim
demands an FN value trimmed of surrounding whitespace, i.e. the line
`FN:B`; the code strips the whole line `"FN: B"` (whose first character
`F` is not whitespace), so the leading space of the value survives and
the emitted line is `FN: B`. -/
theorem vcard_fn_counterexample :
    build_vcard "" "B" "" "" "" "" "" =
        "BEGIN:VCARD\nVERSION:3.0\nN:B;;;;\nFN: B\nEND:VCARD"
      ∧ ("FN: B" : String) ≠ "FN:B" := by
  exact ⟨by decide, by decide⟩

/-- **C4** (corrected).  For all seven input strings, the line list that
`build_vcard` joins with newlines starts with `BEGIN:VCARD`, ends with
`END:VCARD`, contains `VERSION:3.0`, the line `N:<family>;<given>;;;`,
and the FN line obtained by stripping the whole string
`FN:<given> <family>` of surrounding whitespace (only trailing
whitespace of the value can go — the line starts with `F`); each
optional ORG / TITLE / TEL;TYPE=CELL: / EMAIL;TYPE=INTERNET: / URL line
is present iff the corresponding field is non-empty, and the optional
lines appear in exactly that fixed order (the `vcardOptionalLines`
conjunct). -/
theorem vcard_structure (g f p e o t u : String) :
    (vcard_lines g f p e o t u).head? = some "BEGIN:VCARD"
  ∧ (vcard_lines g f p e o t u).getLast? = some "END:VCARD"
  ∧ "VERSION:3.0" ∈ vcard_lines g f p e o t u
  ∧ ("N:" ++ f ++ ";" ++ g ++ ";;;") ∈ vcard_lines g f p e o t u
  ∧ pyStrip ("FN:" ++ g ++ " " ++ f) ∈ vcard_lines g f p e o t u
  ∧ (o ≠ "" ↔ ("ORG:" ++ o) ∈ vcard_lines g f p e o t u)
  ∧ (t ≠ "" ↔ ("TITLE:" ++ t) ∈ vcard_lines g f p e o t u)
  ∧ (p ≠ "" ↔ ("TEL;TYPE=CELL:" ++ p) ∈ vcard_lines g f p e o t u)
  ∧ (e ≠ "" ↔ ("EMAIL;TYPE=INTERNET:" ++ e) ∈ vcard_lines g f p e o t u)
  ∧ (u ≠ "" ↔ ("URL:" ++ u) ∈ vcard_lines g f p e o t u)
  ∧ vcard_lines g f p e o t u =
      ["BEGIN:VCARD", "VERSION:3.0", "N:" ++ f ++ ";" ++ g ++ ";;;",
        pyStrip ("FN:" ++ g ++ " " ++ f)] ++ vcardOptionalLines p e o t u ++ ["END:VCARD"]
  ∧ build_vcard g f p e o t u = String.intercalate "\n" (vcard_lines g f p e o t u) := by
  have hFN : (pyStrip ("FN:" ++ g ++ " " ++ f)).data.head? = some 'F' :=
    pyStrip_head _ 'F' _ rfl (by decide)
  have neFN : ∀ (K : String) (c : Char), K.data.head? = some c → c ≠ 'F' →
      K ≠ pyStrip ("FN:" ++ g ++ " " ++ f) := by
    intro K c hK hc heq
    rw [heq, hFN] at hK
    exact hc (Option.some.inj hK).symm
  have nOrgN : ("ORG:" : String) ≠ "N:" ++ f ++ ";" ++ g ++ ";;;" :=
    ne_of_head2 'O' 'R' 'N' ':' _ _ _ _ rfl rfl (by decide)
  have nTitleN : ("TITLE:" : String) ≠ "N:" ++ f ++ ";" ++ g ++ ";;;" :=
    ne_of_head2 'T' 'I' 'N' ':' _ _ _ _ rfl rfl (by decide)
  have nTelN : ("TEL;TYPE=CELL:" : String) ≠ "N:" ++ f ++ ";" ++ g ++ ";;;" :=
    ne_of_head2 'T' 'E' 'N' ':' _ _ _ _ rfl rfl (by decide)
  have nEmailN : ("EMAIL;TYPE=INTERNET:" : String) ≠ "N:" ++ f ++ ";" ++ g ++ ";;;" :=
    ne_of_head2 'E' 'M' 'N' ':' _ _ _ _ rfl rfl (by decide)
  have nUrlN : ("URL:" : String) ≠ "N:" ++ f ++ ";" ++ g ++ ";;;" :=
    ne_of_head2 'U' 'R' 'N' ':' _ _ _ _ rfl rfl (by decide)
  have nOrgFN : ("ORG:" : String) ≠ pyStrip ("FN:" ++ g ++ " " ++ f) := neFN _ 'O' rfl (by decide)
  have nTitleFN : ("TITLE:" : String) ≠ pyStrip ("FN:" ++ g ++ " " ++ f) :=
    neFN _ 'T' rfl (by decide)
  have nTelFN : ("TEL;TYPE=CELL:" : String) ≠ pyStrip ("FN:" ++ g ++ " " ++ f) :=
    neFN _ 'T' rfl (by decide)
  have nEmailFN : ("EMAIL;TYPE=INTERNET:" : String) ≠ pyStrip ("FN:" ++ g ++ " " ++ f) :=
    neFN _ 'E' rfl (by decide)
  have nUrlFN : ("URL:" : String) ≠ pyStrip ("FN:" ++ g ++ " " ++ f) := neFN _ 'U' rfl (by decide)
  have nOrgTitle : ("ORG:" : String) ≠ "TITLE:" ++ t :=
    ne_of_head2 'O' 'R' 'T' 'I' _ _ _ _ rfl rfl (by decide)
  have nOrgTel : ("ORG:" : String) ≠ "TEL;TYPE=CELL:" ++ p :=
    ne_of_head2 'O' 'R' 'T' 'E' _ _ _ _ rfl rfl (by decide)
  have nOrgEmail : ("ORG:" : String) ≠ "EMAIL;TYPE=INTERNET:" ++ e :=
    ne_of_head2 'O' 'R' 'E' 'M' _ _ _ _ rfl rfl (by decide)
  have nOrgUrl : ("ORG:" : String) ≠ "URL:" ++ u :=
    ne_of_head2 'O' 'R' 'U' 'R' _ _ _ _ rfl rfl (by decide)
  have nTitleOrg : ("TITLE:" : String) ≠ "ORG:" ++ o :=
    ne_of_head2 'T' 'I' 'O' 'R' _ _ _ _ rfl rfl (by decide)
  have nTitleTel : ("TITLE:" : String) ≠ "TEL;TYPE=CELL:" ++ p :=
    ne_of_head2 'T' 'I' 'T' 'E' _ _ _ _ rfl rfl (by decide)
  have nTitleEmail : ("TITLE:" : String) ≠ "EMAIL;TYPE=INTERNET:" ++ e :=
    ne_of_head2 'T' 'I' 'E' 'M' _ _ _ _ rfl rfl (by decide)
  have nTitleUrl : ("TITLE:" : String) ≠ "URL:" ++ u :=
    ne_of_head2 'T' 'I' 'U' 'R' _ _ _ _ rfl rfl (by decide)
  have nTelOrg : ("TEL;TYPE=CELL:" : String) ≠ "ORG:" ++ o :=
    ne_of_head2 'T' 'E' 'O' 'R' _ _ _ _ rfl rfl (by decide)
  have nTelTitle : ("TEL;TYPE=CELL:" : String) ≠ "TITLE:" ++ t :=
    ne_of_head2 'T' 'E' 'T' 'I' _ _ _ _ rfl rfl (by decide)
  have nTelEmail : ("TEL;TYPE=CELL:" : String) ≠ "EMAIL;TYPE=INTERNET:" ++ e :=
    ne_of_head2 'T' 'E' 'E' 'M' _ _ _ _ rfl rfl (by decide)
  have nTelUrl : ("TEL;TYPE=CELL:" : String) ≠ "URL:" ++ u :=
    ne_of_head2 'T' 'E' 'U' 'R' _ _ _ _ rfl rfl (by decide)
  have nEmailOrg : ("EMAIL;TYPE=INTERNET:" : String) ≠ "ORG:" ++ o :=
    ne_of_head2 'E' 'M' 'O' 'R' _ _ _ _ rfl rfl (by decide)
  have nEmailTitle : ("EMAIL;TYPE=INTERNET:" : String) ≠ "TITLE:" ++ t :=
    ne_of_head2 'E' 'M' 'T' 'I' _ _ _ _ rfl rfl (by decide)
  have nEmailTel : ("EMAIL;TYPE=INTERNET:" : String) ≠ "TEL;TYPE=CELL:" ++ p :=
    ne_of_head2 'E' 'M' 'T' 'E' _ _ _ _ rfl rfl (by decide)
  have nEmailUrl : ("EMAIL;TYPE=INTERNET:" : String) ≠ "URL:" ++ u :=
    ne_of_head2 'E' 'M' 'U' 'R' _ _ _ _ rfl rfl (by decide)
  have nUrlOrg : ("URL:" : String) ≠ "ORG:" ++ o :=
    ne_of_head2 'U' 'R' 'O' 'R' _ _ _ _ rfl rfl (by decide)
  have nUrlTitle : ("URL:" : String) ≠ "TITLE:" ++ t :=
    ne_of_head2 'U' 'R' 'T' 'I' _ _ _ _ rfl rfl (by decide)
  have nUrlTel : ("URL:" : String) ≠ "TEL;TYPE=CELL:" ++ p :=
    ne_of_head2 'U' 'R' 'T' 'E' _ _ _ _ rfl rfl (by decide)
  have nUrlEmail : ("URL:" : String) ≠ "EMAIL;TYPE=INTERNET:" ++ e :=
    ne_of_head2 'U' 'R' 'E' 'M' _ _ _ _ rfl rfl (by decide)
  have hstruct : vcard_lines g f p e o t u =
      ["BEGIN:VCARD", "VERSION:3.0", "N:" ++ f ++ ";" ++ g ++ ";;;",
        pyStrip ("FN:" ++ g ++ " " ++ f)] ++ vcardOptionalLines p e o t u ++ ["END:VCARD"] := by
    by_cases ho : o = "" <;> by_cases ht : t = "" <;> by_cases hp : p = "" <;>
      by_cases he : e = "" <;> by_cases hu : u = "" <;>
      simp [vcard_lines, vcardOptionalLines, ho, ht, hp, he, hu]
  refine ⟨rfl, ?_, ?_, ?_, ?_, ?_, ?_, ?_, ?_, ?_, hstruct, rfl⟩
  · rw [hstruct]
    exact List.getLast?_concat _
  · rw [hstruct]; simp
  · rw [hstruct]; simp
  · rw [hstruct]; simp
  · constructor
    · intro hne
      simp [vcard_lines, hne]
    · intro hmem
      intro hne
      subst hne
      simp [vcard_lines, List.mem_ite_nil_left, nOrgN, nOrgFN, nOrgTitle, nOrgTel,
        nOrgEmail, nOrgUrl] at hmem
  · constructor
    · intro hne
      simp [vcard_lines, hne]
    · intro hmem
      intro hne
      subst hne
      simp [vcard_lines, List.mem_ite_nil_left, nTitleN, nTitleFN, nTitleOrg, nTitleTel,
        nTitleEmail, nTitleUrl] at hmem
  · constructor
    · intro hne
      simp [vcard_lines, hne]
    · intro hmem
      intro hne
      subst hne
      simp [vcard_lines, List.mem_ite_nil_left, nTelN, nTelFN, nTelOrg, nTelTitle,
        nTelEmail, nTelUrl] at hmem
  · constructor
    · intro hne
      simp [vcard_lines, hne]
    · intro hmem
      intro hne
      subst hne
      simp [vcard_lines, List.mem_ite_nil_left, nEmailN, nEmailFN, nEmailOrg, nEmailTitle,
        nEmailTel, nEmailUrl] at hmem
  · constructor
    · intro hne
      simp [vcard_lines, hne]
    · intro hmem
      intro hne
      subst hne
      simp [vcard_lines, List.mem_ite_nil_left, nUrlN, nUrlFN, nUrlOrg, nUrlTitle,
        nUrlTel, nUrlEmail] at hmem

end QrLab
